import Mathlib

/-!
# Turbulent potential closure model (`turbulentPotentialJoT.H`)

A shallow embedding of the class `Foam::incompressible::RASModels::turbulentPotentialJoT`.

* `scalar` values are the elements of an arbitrary linear ordered field `α`
  (exact arithmetic; `ℚ` for evaluation, `ℝ` where a square root is needed).
  Physical dimensions carried by `dimensionedScalar` are not tracked.
* A `volScalarField` / `volVectorField` / `volTensorField` is one value per
  cell `ι` of the mesh; field arithmetic in the source is elementwise, so
  every operator on fields becomes the same operator under `fun i => ...`.
* The private data of the class is the structure `turbulentPotentialJoT`;
  every inline member function of the header is a function of that structure.
* `nu()` is inherited from `RASModel` (the laminar viscosity of the transport
  model); it is carried as the component `nu` of the state.
-/

namespace Foam

/-- OpenFOAM `word`: a string-valued selector. -/
abbrev word := String

/-- OpenFOAM `vector`: three scalar components. -/
structure vector (α : Type) where
  x : α
  y : α
  z : α
deriving DecidableEq, Repr

/-- OpenFOAM `tensor`: nine scalar components. -/
structure tensor (α : Type) where
  xx : α
  xy : α
  xz : α
  yx : α
  yy : α
  yz : α
  zx : α
  zy : α
  zz : α
deriving DecidableEq, Repr

/-- OpenFOAM `symmTensor`: six independent scalar components. -/
structure symmTensor (α : Type) where
  xx : α
  xy : α
  xz : α
  yy : α
  yz : α
  zz : α
deriving DecidableEq, Repr

/-- `operator/(vector, scalar)`: componentwise division of a vector by a scalar. -/
def vector.divScalar {α : Type} [Div α] (v : vector α) (s : α) : vector α :=
  ⟨v.x / s, v.y / s, v.z / s⟩

/-- `symm(tensor)`: the symmetric part of a tensor. -/
def tensor.symm {α : Type} [Add α] [Mul α] [Div α] [OfNat α 2] (t : tensor α) : symmTensor α :=
  ⟨t.xx, (t.xy + t.yx) / 2, (t.xz + t.zx) / 2, t.yy, (t.yz + t.zy) / 2, t.zz⟩

/-- `operator*(scalar, symmTensor)`: componentwise scaling. -/
def symmTensor.scale {α : Type} [Mul α] (s : α) (t : symmTensor α) : symmTensor α :=
  ⟨s * t.xx, s * t.xy, s * t.xz, s * t.yy, s * t.yz, s * t.zz⟩

/-- A scalar field: one scalar per cell. -/
abbrev volScalarField (ι α : Type) := ι → α

/-- A vector field: one vector per cell. -/
abbrev volVectorField (ι α : Type) := ι → vector α

/-- A tensor field: one tensor per cell. -/
abbrev volTensorField (ι α : Type) := ι → tensor α

/-- A symmetric tensor field: one symmetric tensor per cell. -/
abbrev volSymmTensorField (ι α : Type) := ι → symmTensor α

/-- The private data of `class turbulentPotentialJoT` (header lines 78-167),
together with the laminar viscosity `nu` that the base class `RASModel`
provides through `nu()`. -/
structure turbulentPotentialJoT (ι α : Type) where
  -- Model coefficients
  cEp1_ : α
  cEp2con_ : α
  cEp3_ : α
  cD1_ : α
  cD2_ : α
  cVv1_ : α
  cTv1_ : α
  cP1_ : α
  cP2_ : α
  cP3_ : α
  cP4_ : α
  cPphi_ : α
  cMu_ : α
  cT_ : α
  cPr_ : α
  cEhm_ : α
  cEhR_ : α
  gT1_ : α
  gT2_ : α
  gT3_ : α
  cNF_ : α
  cPw_ : α
  sigmaKInit_ : α
  sigmaEpsInit_ : α
  sigmaEpsVisc_ : α
  sigmaPhiInit_ : α
  sigmaPsiInit_ : α
  psiNuFrac_ : α
  solveK_ : word
  solveEps_ : word
  solvePsi_ : word
  solvePhi_ : word
  solveNut_ : word
  eqnSigmaK_ : word
  eqnSigmaEps_ : word
  eqnSigmaPhi_ : word
  eqnSigmaPsi_ : word
  eqncEp2_ : word
  eqnEpsHat_ : word
  timeScaleEps_ : word
  prodType_ : word
  debugWrite_ : word
  tslimiter_ : word
  psiProd_ : word
  -- Wall distance field
  y_ : volScalarField ι α
  -- Fields
  k_ : volScalarField ι α
  gradk_ : volVectorField ι α
  epsilon_ : volScalarField ι α
  nut_ : volScalarField ι α
  nutNorm_ : volScalarField ι α
  tpphi_ : volScalarField ι α
  tpphisqrt_ : volScalarField ι α
  vorticity_ : volVectorField ι α
  phis_ : volVectorField ι α
  vorticityTmp_ : volVectorField ι α
  ivorticity_ : volVectorField ι α
  tppsi_ : volVectorField ι α
  uGrad_ : volTensorField ι α
  epsHat_ : volScalarField ι α
  eHrC_ : volScalarField ι α
  kol_ : volScalarField ι α
  kSafe_ : volScalarField ι α
  kSqrt_ : volScalarField ι α
  gradkSqrt_ : volVectorField ι α
  nutSafe_ : volScalarField ι α
  epsilonSafe_ : volScalarField ι α
  sigmaK_ : volScalarField ι α
  sigmaEps_ : volScalarField ι α
  sigmaPhi_ : volScalarField ι α
  sigmaPsi_ : volScalarField ι α
  cEp2_ : volScalarField ι α
  tpProd_ : volScalarField ι α
  cP1eqn_ : volScalarField ι α
  dimRat_ : volScalarField ι α
  gradTpphi_ : volVectorField ι α
  gradTppsi_ : volTensorField ι α
  tpProdSqr_ : volScalarField ι α
  tpProd3d_ : volScalarField ι α
  phiPressureStrain : volScalarField ι α
  phiPressureDiff : volScalarField ι α
  phiDiss : volScalarField ι α
  phiViscDiff : volScalarField ι α
  phiTurbDiff : volScalarField ι α
  -- Laminar viscosity of the transport model, returned by `RASModel::nu()`
  nu : volScalarField ι α

namespace turbulentPotentialJoT

variable {ι α : Type} [LinearOrderedField α]

/-- Header line 220: `phiS()` is `tpphi_*symm(uGrad_)`. -/
def phiS (m : turbulentPotentialJoT ι α) : volSymmTensorField ι α :=
  fun i => symmTensor.scale (m.tpphi_ i) (m.uGrad_ i).symm

/-- Header line 238: `sreal()` is `phis_/tpphi_`. -/
def sreal (m : turbulentPotentialJoT ι α) : volVectorField ι α :=
  fun i => (m.phis_ i).divScalar (m.tpphi_ i)

/-- Header line 248: `PhiOverK()` is `tpphi_/k_`. -/
def PhiOverK (m : turbulentPotentialJoT ι α) : volScalarField ι α :=
  fun i => m.tpphi_ i / m.k_ i

/-- Header line 257: `PsiOverK()` is `tppsi_/k_`. -/
def PsiOverK (m : turbulentPotentialJoT ι α) : volVectorField ι α :=
  fun i => (m.tppsi_ i).divScalar (m.k_ i)

/-- Header line 293: `reTau()` is `k_*k_/(nu()*epsilon_)`. -/
def reTau (m : turbulentPotentialJoT ι α) : volScalarField ι α :=
  fun i => m.k_ i * m.k_ i / (m.nu i * m.epsilon_ i)

/-- Header line 303: `EpsHat()` returns `epsHat_`. -/
def EpsHat (m : turbulentPotentialJoT ι α) : volScalarField ι α :=
  m.epsHat_

/-- Header line 319: `Alpha()` is `1.0/(1.0 + 1.5*PhiOverK())`. -/
def Alpha (m : turbulentPotentialJoT ι α) : volScalarField ι α :=
  fun i => 1.0 / (1.0 + 1.5 * m.PhiOverK i)

/-- Header line 328: `cEp2()` returns `cEp2_`. -/
def cEp2 (m : turbulentPotentialJoT ι α) : volScalarField ι α :=
  m.cEp2_

/-- Header line 334: `DkEff()` is `nut_*sigmaK_ + nu()`. -/
def DkEff (m : turbulentPotentialJoT ι α) : volScalarField ι α :=
  fun i => m.nut_ i * m.sigmaK_ i + m.nu i

/-- Header line 343: `DepsilonEff()` is `nut_*sigmaEps_ + nu()*sigmaEpsVisc_`. -/
def DepsilonEff (m : turbulentPotentialJoT ι α) : volScalarField ι α :=
  fun i => m.nut_ i * m.sigmaEps_ i + m.nu i * m.sigmaEpsVisc_

/-- Header line 352: `DphiEff()` is `nut_*sigmaPhi_ + nu()`. -/
def DphiEff (m : turbulentPotentialJoT ι α) : volScalarField ι α :=
  fun i => m.nut_ i * m.sigmaPhi_ i + m.nu i

/-- Header line 361: `DpsiEff()` is `nut_*sigmaPsi_ + psiNuFrac_*nu()`. -/
def DpsiEff (m : turbulentPotentialJoT ι α) : volScalarField ι α :=
  fun i => m.nut_ i * m.sigmaPsi_ i + m.psiNuFrac_ * m.nu i

/-- Header line 370: `DEff()` is `nut_ + nu()`. -/
def DEff (m : turbulentPotentialJoT ι α) : volScalarField ι α :=
  fun i => m.nut_ i + m.nu i

/-- Header line 379: `tpReynolds()` is `k_*k_/(epsilon_*nu())`. -/
def tpReynolds (m : turbulentPotentialJoT ι α) : volScalarField ι α :=
  fun i => m.k_ i * m.k_ i / (m.epsilon_ i * m.nu i)

/-- Header line 388: `vorticity()` returns `vorticity_`. -/
def vorticity (m : turbulentPotentialJoT ι α) : volVectorField ι α :=
  m.vorticity_

/-- Header line 394: `psiproduction()` returns `tpProd_`. -/
def psiproduction (m : turbulentPotentialJoT ι α) : volScalarField ι α :=
  m.tpProd_

/-- Header line 400: `k()` returns `k_`. -/
def k (m : turbulentPotentialJoT ι α) : volScalarField ι α :=
  m.k_

/-- Header line 406: `epsilon()` returns `epsilon_`. -/
def epsilon (m : turbulentPotentialJoT ι α) : volScalarField ι α :=
  m.epsilon_

/-- Header line 412: `psiReal()` returns `tppsi_`. -/
def psiReal (m : turbulentPotentialJoT ι α) : volVectorField ι α :=
  m.tppsi_

/-- Header line 418: `phiReal()` returns `tpphi_`. -/
def phiReal (m : turbulentPotentialJoT ι α) : volScalarField ι α :=
  m.tpphi_

/-! ## The correction step

`correct()` is only declared in the header (line 433); its body lives in
`turbulentPotentialJoT.C`.  The step below follows the description of the
closure corrector: derive the step-local quantities, then solve the
equations for k, dissipation, phi and psi in that order, then update the eddy
viscosity.  Everything the description leaves to external collaborators
(the assembled transport equations, the linear solver, the blending rule of
the diffusion coefficients, the eddy-viscosity closure) is a component of
`Collaborators`.
-/

end turbulentPotentialJoT

/-! ## Concrete states for evaluation -/

/-- The zero vector. -/
def vector.zero (α : Type) [Zero α] : vector α := ⟨0, 0, 0⟩

/-- The zero tensor. -/
def tensor.zero (α : Type) [Zero α] : tensor α := ⟨0, 0, 0, 0, 0, 0, 0, 0, 0⟩

/-- A state with every coefficient and field zero and every mode switch
"off"; concrete inputs are obtained from it by setting the members that
matter. -/
def zeroState (ι α : Type) [Zero α] : turbulentPotentialJoT ι α where
  cEp1_ := 0
  cEp2con_ := 0
  cEp3_ := 0
  cD1_ := 0
  cD2_ := 0
  cVv1_ := 0
  cTv1_ := 0
  cP1_ := 0
  cP2_ := 0
  cP3_ := 0
  cP4_ := 0
  cPphi_ := 0
  cMu_ := 0
  cT_ := 0
  cPr_ := 0
  cEhm_ := 0
  cEhR_ := 0
  gT1_ := 0
  gT2_ := 0
  gT3_ := 0
  cNF_ := 0
  cPw_ := 0
  sigmaKInit_ := 0
  sigmaEpsInit_ := 0
  sigmaEpsVisc_ := 0
  sigmaPhiInit_ := 0
  sigmaPsiInit_ := 0
  psiNuFrac_ := 0
  solveK_ := "off"
  solveEps_ := "off"
  solvePsi_ := "off"
  solvePhi_ := "off"
  solveNut_ := "off"
  eqnSigmaK_ := "off"
  eqnSigmaEps_ := "off"
  eqnSigmaPhi_ := "off"
  eqnSigmaPsi_ := "off"
  eqncEp2_ := "off"
  eqnEpsHat_ := "off"
  timeScaleEps_ := "off"
  prodType_ := "off"
  debugWrite_ := "off"
  tslimiter_ := "off"
  psiProd_ := "off"
  y_ := fun _ => 0
  k_ := fun _ => 0
  gradk_ := fun _ => vector.zero α
  epsilon_ := fun _ => 0
  nut_ := fun _ => 0
  nutNorm_ := fun _ => 0
  tpphi_ := fun _ => 0
  tpphisqrt_ := fun _ => 0
  vorticity_ := fun _ => vector.zero α
  phis_ := fun _ => vector.zero α
  vorticityTmp_ := fun _ => vector.zero α
  ivorticity_ := fun _ => vector.zero α
  tppsi_ := fun _ => vector.zero α
  uGrad_ := fun _ => tensor.zero α
  epsHat_ := fun _ => 0
  eHrC_ := fun _ => 0
  kol_ := fun _ => 0
  kSafe_ := fun _ => 0
  kSqrt_ := fun _ => 0
  gradkSqrt_ := fun _ => vector.zero α
  nutSafe_ := fun _ => 0
  epsilonSafe_ := fun _ => 0
  sigmaK_ := fun _ => 0
  sigmaEps_ := fun _ => 0
  sigmaPhi_ := fun _ => 0
  sigmaPsi_ := fun _ => 0
  cEp2_ := fun _ => 0
  tpProd_ := fun _ => 0
  cP1eqn_ := fun _ => 0
  dimRat_ := fun _ => 0
  gradTpphi_ := fun _ => vector.zero α
  gradTppsi_ := fun _ => tensor.zero α
  tpProdSqr_ := fun _ => 0
  tpProd3d_ := fun _ => 0
  phiPressureStrain := fun _ => 0
  phiPressureDiff := fun _ => 0
  phiDiss := fun _ => 0
  phiViscDiff := fun _ => 0
  phiTurbDiff := fun _ => 0
  nu := fun _ => 0

namespace turbulentPotentialJoT

variable {ι α : Type} [LinearOrderedField α]

/-- C3: in every cell where `PhiOverK()` is 0, `Alpha()` is exactly 1. -/
theorem Alpha_eq_one_of_PhiOverK_eq_zero (m : turbulentPotentialJoT ι α) (i : ι)
    (h : m.PhiOverK i = 0) : m.Alpha i = 1 := by
  show 1.0 / (1.0 + 1.5 * m.PhiOverK i) = 1
  rw [h]
  norm_num

/-- Witness for `Alpha_eq_one_of_PhiOverK_eq_zero`: `Alpha(phi = 0, k = 1) = 1`. -/
theorem Alpha_eq_one_witness :
    PhiOverK { zeroState Unit ℚ with tpphi_ := fun _ => 0, k_ := fun _ => 1 } () = 0 ∧
    Alpha { zeroState Unit ℚ with tpphi_ := fun _ => 0, k_ := fun _ => 1 } () = 1 :=
  ⟨by norm_num [PhiOverK, zeroState],
   Alpha_eq_one_of_PhiOverK_eq_zero
     { zeroState Unit ℚ with tpphi_ := fun _ => 0, k_ := fun _ => 1 } ()
     (by norm_num [PhiOverK, zeroState])⟩

/-- C5 (as stated, refuted): with `sigmaK = -1` and `nu = 0`, raising `nut`
from 0 to 1 lowers `DkEff` from 0 to -1, so the effective diffusivity is not
increasing in `nut` for every sigma. -/
theorem DkEff_not_monotone_nut :
    (0 : ℚ) ≤ 1 ∧
    DkEff { zeroState Unit ℚ with nut_ := fun _ => 0, sigmaK_ := fun _ => -1 } () = 0 ∧
    DkEff { zeroState Unit ℚ with nut_ := fun _ => 1, sigmaK_ := fun _ => -1 } () = -1 ∧
    ¬ (DkEff { zeroState Unit ℚ with nut_ := fun _ => 0, sigmaK_ := fun _ => -1 } () ≤
       DkEff { zeroState Unit ℚ with nut_ := fun _ => 1, sigmaK_ := fun _ => -1 } ()) := by
  norm_num [DkEff, zeroState]

/-- C5 (amended): each of `DkEff`, `DepsilonEff`, `DphiEff`, `DpsiEff` is
monotonically increasing in `nut` in every cell where its sigma field is
non-negative (for every `nu`, `sigmaEpsVisc`, `psiNuFrac`), and `DEff` is
monotonically increasing in `nut` without condition. -/
theorem DEff_monotone_nut (m : turbulentPotentialJoT ι α) (nut2 : volScalarField ι α) (i : ι)
    (h12 : m.nut_ i ≤ nut2 i) :
    (0 ≤ m.sigmaK_ i → m.DkEff i ≤ DkEff { m with nut_ := nut2 } i) ∧
    (0 ≤ m.sigmaEps_ i → m.DepsilonEff i ≤ DepsilonEff { m with nut_ := nut2 } i) ∧
    (0 ≤ m.sigmaPhi_ i → m.DphiEff i ≤ DphiEff { m with nut_ := nut2 } i) ∧
    (0 ≤ m.sigmaPsi_ i → m.DpsiEff i ≤ DpsiEff { m with nut_ := nut2 } i) ∧
    m.DEff i ≤ DEff { m with nut_ := nut2 } i := by
  refine ⟨?_, ?_, ?_, ?_, ?_⟩
  · intro hs
    show m.nut_ i * m.sigmaK_ i + m.nu i ≤ nut2 i * m.sigmaK_ i + m.nu i
    have := mul_le_mul_of_nonneg_right h12 hs
    linarith
  · intro hs
    show m.nut_ i * m.sigmaEps_ i + m.nu i * m.sigmaEpsVisc_ ≤
      nut2 i * m.sigmaEps_ i + m.nu i * m.sigmaEpsVisc_
    have := mul_le_mul_of_nonneg_right h12 hs
    linarith
  · intro hs
    show m.nut_ i * m.sigmaPhi_ i + m.nu i ≤ nut2 i * m.sigmaPhi_ i + m.nu i
    have := mul_le_mul_of_nonneg_right h12 hs
    linarith
  · intro hs
    show m.nut_ i * m.sigmaPsi_ i + m.psiNuFrac_ * m.nu i ≤
      nut2 i * m.sigmaPsi_ i + m.psiNuFrac_ * m.nu i
    have := mul_le_mul_of_nonneg_right h12 hs
    linarith
  · show m.nut_ i + m.nu i ≤ nut2 i + m.nu i
    linarith

/-- Witness for `DEff_monotone_nut` with `sigmaK = 0.5`, `nu = 1e-5`, `nut`
raised from 0 to 1: `DkEff` goes from `nu = 1e-5` to `0.5 + 1e-5`. -/
theorem DEff_monotone_nut_witness :
    DkEff { zeroState Unit ℚ with nut_ := fun _ => 0, sigmaK_ := fun _ => 0.5,
                                  nu := fun _ => 1e-5 } () = 1e-5 ∧
    DkEff { zeroState Unit ℚ with nut_ := fun _ => 1, sigmaK_ := fun _ => 0.5,
                                  nu := fun _ => 1e-5 } () = 0.5 + 1e-5 ∧
    DkEff { zeroState Unit ℚ with nut_ := fun _ => 0, sigmaK_ := fun _ => 0.5,
                                  nu := fun _ => 1e-5 } () ≤
      DkEff { { zeroState Unit ℚ with nut_ := fun _ => 0, sigmaK_ := fun _ => 0.5,
                                      nu := fun _ => 1e-5 } with nut_ := fun _ => 1 } () :=
  ⟨by norm_num [DkEff, zeroState], by norm_num [DkEff, zeroState],
   (DEff_monotone_nut
      { zeroState Unit ℚ with nut_ := fun _ => 0, sigmaK_ := fun _ => 0.5, nu := fun _ => 1e-5 }
      (fun _ => 1) () (by norm_num)).1 (by norm_num)⟩

/-- C6 (as stated, refuted): with `nut = 0`, `nu = 1` and `sigmaEpsVisc = 2`,
`DepsilonEff` is 2 while `nut*sigmaEps + nu` is 1: the molecular-viscosity
correction of the dissipation diffusivity is not 1. -/
theorem DepsilonEff_ne_nut_sigma_add_nu :
    DepsilonEff { zeroState Unit ℚ with nu := fun _ => 1, sigmaEpsVisc_ := 2 } () = 2 ∧
    DepsilonEff { zeroState Unit ℚ with nu := fun _ => 1, sigmaEpsVisc_ := 2 } () ≠
      nut_ { zeroState Unit ℚ with nu := fun _ => 1, sigmaEpsVisc_ := 2 } () *
        sigmaEps_ { zeroState Unit ℚ with nu := fun _ => 1, sigmaEpsVisc_ := 2 } () +
      nu { zeroState Unit ℚ with nu := fun _ => 1, sigmaEpsVisc_ := 2 } () := by
  norm_num [DepsilonEff, zeroState]

/-- C6 (amended): `DkEff = nut*sigmaK + nu`, `DphiEff = nut*sigmaPhi + nu`,
`DepsilonEff = nut*sigmaEps + nu*sigmaEpsVisc` and
`DpsiEff = nut*sigmaPsi + psiNuFrac*nu`: the molecular-viscosity correction is
1 for k and phi and a configurable constant for epsilon and for psi.  In
particular `DkEff = nu` in every cell where `nut = 0`, for every `sigmaK`,
and `DepsilonEff = nut*sigmaEps + nu` when `sigmaEpsVisc = 1`. -/
theorem DEff_forms (m : turbulentPotentialJoT ι α) (i : ι) :
    m.DkEff i = m.nut_ i * m.sigmaK_ i + m.nu i * 1 ∧
    m.DepsilonEff i = m.nut_ i * m.sigmaEps_ i + m.nu i * m.sigmaEpsVisc_ ∧
    m.DphiEff i = m.nut_ i * m.sigmaPhi_ i + m.nu i * 1 ∧
    m.DpsiEff i = m.nut_ i * m.sigmaPsi_ i + m.nu i * m.psiNuFrac_ ∧
    (m.nut_ i = 0 → m.DkEff i = m.nu i) ∧
    (m.sigmaEpsVisc_ = 1 → m.DepsilonEff i = m.nut_ i * m.sigmaEps_ i + m.nu i) := by
  refine ⟨?_, ?_, ?_, ?_, ?_, ?_⟩
  · show m.nut_ i * m.sigmaK_ i + m.nu i = _
    ring
  · rfl
  · show m.nut_ i * m.sigmaPhi_ i + m.nu i = _
    ring
  · show m.nut_ i * m.sigmaPsi_ i + m.psiNuFrac_ * m.nu i = _
    ring
  · intro h
    show m.nut_ i * m.sigmaK_ i + m.nu i = m.nu i
    rw [h]
    ring
  · intro h
    show m.nut_ i * m.sigmaEps_ i + m.nu i * m.sigmaEpsVisc_ = _
    rw [h]
    ring

/-- Witness for `DEff_forms` at `nut = 0`, `sigmaK = 7`, `nu = 3`,
`sigmaEpsVisc = 1`: `DkEff = 3 = nu` and `DepsilonEff = 3`. -/
theorem DEff_forms_witness :
    DkEff { zeroState Unit ℚ with sigmaK_ := fun _ => 7, nu := fun _ => 3,
                                  sigmaEpsVisc_ := 1 } () = 3 ∧
    DepsilonEff { zeroState Unit ℚ with sigmaK_ := fun _ => 7, nu := fun _ => 3,
                                        sigmaEpsVisc_ := 1 } () = 3 := by
  have h := DEff_forms
    { zeroState Unit ℚ with sigmaK_ := fun _ => 7, nu := fun _ => 3, sigmaEpsVisc_ := 1 } ()
  refine ⟨?_, ?_⟩
  · rw [h.2.2.2.2.1 (by norm_num [zeroState])]
  · rw [h.2.2.2.2.2 (by norm_num [zeroState])]
    norm_num [zeroState]

/-- C8 (as stated, refuted): there is no state and cell, with `nu*epsilon`
non-zero, in which `reTau()` and `tpReynolds()` differ. -/
theorem reTau_tpReynolds_never_differ :
    ¬ ∃ (m : turbulentPotentialJoT Unit ℚ) (i : Unit),
        m.nu i * m.epsilon_ i ≠ 0 ∧ m.reTau i ≠ m.tpReynolds i := by
  rintro ⟨m, i, -, h⟩
  apply h
  show m.k_ i * m.k_ i / (m.nu i * m.epsilon_ i) = m.k_ i * m.k_ i / (m.epsilon_ i * m.nu i)
  rw [mul_comm (m.nu i)]

/-- C8 (amended): `reTau()` and `tpReynolds()` are the same function: both are
`k*k/(nu*epsilon)` in every cell of every state, the two sources differing
only in the order of the two factors of the denominator. -/
theorem reTau_eq_tpReynolds (m : turbulentPotentialJoT ι α) :
    m.reTau = m.tpReynolds ∧ ∀ i, m.reTau i = m.k_ i ^ 2 / (m.nu i * m.epsilon_ i) := by
  refine ⟨?_, ?_⟩
  · funext i
    show m.k_ i * m.k_ i / (m.nu i * m.epsilon_ i) = m.k_ i * m.k_ i / (m.epsilon_ i * m.nu i)
    rw [mul_comm (m.nu i)]
  · intro i
    show m.k_ i * m.k_ i / (m.nu i * m.epsilon_ i) = _
    rw [sq]

/-- C9 (as stated, refuted): in a state with `phis = (0,0,0)`,
`tppsi = (2,4,6)` and `tpphi = 2`, `sreal()` is `(0,0,0)` while the quotient of
`psiReal()` by `phiReal()` is `(1,2,3)`; and changing `phis` alone changes
`sreal()`, so it is not determined by psi and phi. -/
theorem sreal_ne_psi_div_phi :
    sreal { zeroState Unit ℚ with tppsi_ := fun _ => ⟨2, 4, 6⟩, tpphi_ := fun _ => 2 } ()
      = ⟨0, 0, 0⟩ ∧
    (psiReal { zeroState Unit ℚ with tppsi_ := fun _ => ⟨2, 4, 6⟩, tpphi_ := fun _ => 2 }
        ()).divScalar
      (phiReal { zeroState Unit ℚ with tppsi_ := fun _ => ⟨2, 4, 6⟩, tpphi_ := fun _ => 2 } ())
      = ⟨1, 2, 3⟩ ∧
    sreal { zeroState Unit ℚ with tppsi_ := fun _ => ⟨2, 4, 6⟩, tpphi_ := fun _ => 2 } () ≠
      (psiReal { zeroState Unit ℚ with tppsi_ := fun _ => ⟨2, 4, 6⟩, tpphi_ := fun _ => 2 }
        ()).divScalar
      (phiReal { zeroState Unit ℚ with tppsi_ := fun _ => ⟨2, 4, 6⟩, tpphi_ := fun _ => 2 } ()) ∧
    sreal { zeroState Unit ℚ with tppsi_ := fun _ => ⟨2, 4, 6⟩, tpphi_ := fun _ => 2,
                                  phis_ := fun _ => ⟨2, 2, 2⟩ } () = ⟨1, 1, 1⟩ := by
  refine ⟨?_, ?_, ?_, ?_⟩ <;>
    norm_num [sreal, psiReal, phiReal, vector.divScalar, zeroState, vector.zero]

/-- C9 (amended): `sreal()` is the elementwise quotient of the field `phis_`
by the phi field `tpphi_`: each component of `sreal` is the corresponding
component of `phis_` divided by `tpphi_`, so `sreal` is determined by `phis_`
and `tpphi_` alone and does not depend on the psi field `tppsi_`. -/
theorem sreal_eq_phis_div_tpphi (m : turbulentPotentialJoT ι α) :
    (∀ i, (m.sreal i).x = (m.phis_ i).x / m.phiReal i ∧
          (m.sreal i).y = (m.phis_ i).y / m.phiReal i ∧
          (m.sreal i).z = (m.phis_ i).z / m.phiReal i) ∧
    (∀ m2 : turbulentPotentialJoT ι α,
        m2.phis_ = m.phis_ → m2.tpphi_ = m.tpphi_ → m2.sreal = m.sreal) ∧
    (∀ psi : volVectorField ι α, sreal { m with tppsi_ := psi } = m.sreal) := by
  refine ⟨?_, ?_, ?_⟩
  · intro i
    exact ⟨rfl, rfl, rfl⟩
  · intro m2 h1 h2
    funext i
    show (m2.phis_ i).divScalar (m2.tpphi_ i) = (m.phis_ i).divScalar (m.tpphi_ i)
    rw [h1, h2]
  · intro psi
    rfl

/-- Witness for `sreal_eq_phis_div_tpphi`: a state with `phis = (2,2,2)`,
`tpphi = 2` and any psi has `sreal = (1,1,1)`, as has the state that agrees
with it on `phis` and `tpphi` and has `tppsi = (2,4,6)`. -/
theorem sreal_eq_phis_div_tpphi_witness :
    sreal { zeroState Unit ℚ with tppsi_ := fun _ => ⟨2, 4, 6⟩, tpphi_ := fun _ => 2,
                                  phis_ := fun _ => ⟨2, 2, 2⟩ } =
    sreal { zeroState Unit ℚ with tpphi_ := fun _ => 2, phis_ := fun _ => ⟨2, 2, 2⟩ } :=
  (sreal_eq_phis_div_tpphi
      { zeroState Unit ℚ with tpphi_ := fun _ => 2, phis_ := fun _ => ⟨2, 2, 2⟩ }).2.1
    { zeroState Unit ℚ with tppsi_ := fun _ => ⟨2, 4, 6⟩, tpphi_ := fun _ => 2,
                            phis_ := fun _ => ⟨2, 2, 2⟩ } rfl rfl

/-- C10: for `k > 0` and `phi ≥ 0` the denominator `1 + 1.5*phi/k` of
`Alpha()` is positive; if moreover `phi ≤ 2k` then `1/4 ≤ Alpha ≤ 1`; and for
fixed `k > 0`, raising `phi ≥ 0` to any larger value does not raise `Alpha`. -/
theorem Alpha_bounded_antitone (m : turbulentPotentialJoT ι α) (i : ι)
    (hk : 0 < m.k_ i) (h0 : 0 ≤ m.tpphi_ i) :
    (m.tpphi_ i ≤ 2 * m.k_ i → 1 / 4 ≤ m.Alpha i ∧ m.Alpha i ≤ 1) ∧
    0 < 1 + 1.5 * m.PhiOverK i ∧
    (∀ phi2 : volScalarField ι α, m.tpphi_ i ≤ phi2 i →
      Alpha { m with tpphi_ := phi2 } i ≤ m.Alpha i) := by
  have hq0 : 0 ≤ m.tpphi_ i / m.k_ i := div_nonneg h0 hk.le
  have hd : (0 : α) < 1 + 3 / 2 * (m.tpphi_ i / m.k_ i) := by positivity
  have hA : m.Alpha i = 1 / (1 + 3 / 2 * (m.tpphi_ i / m.k_ i)) := by
    show 1.0 / (1.0 + 1.5 * (m.tpphi_ i / m.k_ i)) = _
    norm_num
  refine ⟨?_, ?_, ?_⟩
  · intro h2
    have hq2 : m.tpphi_ i / m.k_ i ≤ 2 := by
      rw [div_le_iff₀ hk]
      exact h2
    rw [hA]
    constructor
    · rw [div_le_div_iff₀ (by norm_num) hd]
      linarith
    · rw [div_le_one hd]
      linarith
  · show (0 : α) < 1 + 1.5 * (m.tpphi_ i / m.k_ i)
    norm_num
    linarith
  · intro phi2 h12
    have hq12 : m.tpphi_ i / m.k_ i ≤ phi2 i / m.k_ i :=
      div_le_div_of_nonneg_right h12 hk.le
    have hA2 : Alpha { m with tpphi_ := phi2 } i = 1 / (1 + 3 / 2 * (phi2 i / m.k_ i)) := by
      show 1.0 / (1.0 + 1.5 * (phi2 i / m.k_ i)) = _
      norm_num
    rw [hA, hA2]
    apply one_div_le_one_div_of_le hd
    linarith

/-- Witness for `Alpha_bounded_antitone` at `k = 1`, `phi = 0` raised to 2:
`Alpha` is 1 at `phi = 0` and 1/4 at `phi = 2k`. -/
theorem Alpha_bounded_antitone_witness :
    Alpha { zeroState Unit ℚ with k_ := fun _ => 1, tpphi_ := fun _ => 0 } () = 1 ∧
    Alpha { zeroState Unit ℚ with k_ := fun _ => 1, tpphi_ := fun _ => 2 } () = 1 / 4 ∧
    (1 / 4 ≤ Alpha { zeroState Unit ℚ with k_ := fun _ => 1, tpphi_ := fun _ => 0 } () ∧
      Alpha { zeroState Unit ℚ with k_ := fun _ => 1, tpphi_ := fun _ => 0 } () ≤ 1) ∧
    Alpha { { zeroState Unit ℚ with k_ := fun _ => 1, tpphi_ := fun _ => 0 } with
            tpphi_ := fun _ => 2 } () ≤
      Alpha { zeroState Unit ℚ with k_ := fun _ => 1, tpphi_ := fun _ => 0 } () := by
  have h := Alpha_bounded_antitone
    { zeroState Unit ℚ with k_ := fun _ => 1, tpphi_ := fun _ => 0 } ()
    (by norm_num) (by norm_num)
  exact ⟨by norm_num [Alpha, PhiOverK, zeroState], by norm_num [Alpha, PhiOverK, zeroState],
    h.1 (by norm_num), h.2.2 (fun _ => 2) (by norm_num)⟩

end turbulentPotentialJoT

end Foam
